import Mathlib

/-!
Shallow embedding of the core of `spotify_playlist_to_liked.py`: the retry
wrapper `rate_limited_request`, the pagination loop of
`get_playlist_info_and_tracks`, the pacing choice and the per-track add/remove
loop of `process_songs`, and the liked-songs export of
`create_playlist_from_liked`.  Remote calls are modelled by explicit outcome
parameters (one outcome per attempt / per page / per track); sleeps, console
output and the progress bar are dropped, as they carry no data flow.
-/

namespace Spotify

/-- Safety threshold over which pacing is forced slow (line 37). -/
def SAFE_THRESHOLD : ℕ := 1000

/-- Forced per-song delay for large playlists (line 38). -/
def SLOW_THRESHOLD_DELAY : ℚ := 1.2

/-- Post-success delay base of the retry wrapper (line 39). -/
def MIN_DELAY_BASE : ℚ := 0.35

/-- Maximum attempt count of the retry wrapper (line 41). -/
def MAX_RETRIES : ℕ := 5

/-- Advisory threshold; defined at line 42 but unused by the rest of the code. -/
def WARNING_VERY_LARGE : ℕ := 3000

/-- User-selectable speed modes (keys of the dict at lines 44-48). -/
inductive Speed where
  | fast
  | balanced
  | accurate
deriving DecidableEq, Repr

/-- Per-song delays of the speed modes (lines 44-48). -/
def SPEED_MODES : Speed → ℚ
  | .fast => 0.35
  | .balanced => 0.6
  | .accurate => 1.5

/-- Kind of a pacing decision: a user speed mode, or forced safety pacing. -/
inductive PaceKind where
  | fast
  | balanced
  | accurate
  | safetyForced
deriving DecidableEq, Repr

/-- Kind corresponding to a user speed selection. -/
def PaceKind.ofSpeed : Speed → PaceKind
  | .fast => .fast
  | .balanced => .balanced
  | .accurate => .accurate

/-- Pacing decision of `process_songs` (lines 268-289): above `SAFE_THRESHOLD`
the delay is forced to `SLOW_THRESHOLD_DELAY`, ignoring the user selection;
otherwise the user selection picks the delay from `SPEED_MODES`, with
`balanced` as the default (the prompt at line 283 has default choice "2"). -/
def decide_pacing (total : ℕ) (choice : Option Speed) : ℚ × PaceKind :=
  if total > SAFE_THRESHOLD then
    (SLOW_THRESHOLD_DELAY, PaceKind.safetyForced)
  else
    let s := choice.getD Speed.balanced
    (SPEED_MODES s, PaceKind.ofSpeed s)

/-- Outcome of one attempt of a wrapped remote call, as classified by
`rate_limited_request` (lines 157-176): success, a 429 rate-limit error, or
any other `SpotifyException`.  A non-Spotify exception would propagate out of
the wrapper; it is modelled at the call sites, not here. -/
inductive AttemptResult (α : Type) where
  | ok (a : α)
  | rateLimited (retryAfter : ℕ)
  | apiError
deriving DecidableEq

/-- Loop body of `rate_limited_request` (lines 158-176): `fuel` is
`MAX_RETRIES - retries`, `attempt` counts invocations of the wrapped function
so far.  Returns the wrapper's result (`none` = terminal failure, line 176)
together with the total number of invocations made. -/
def rlr_go {α : Type} (outcomes : ℕ → AttemptResult α) : ℕ → ℕ → Option α × ℕ
  | 0, attempt => (none, attempt)
  | fuel + 1, attempt =>
    match outcomes attempt with
    | .ok a => (some a, attempt + 1)
    | .rateLimited _ => rlr_go outcomes fuel (attempt + 1)
    | .apiError => rlr_go outcomes fuel (attempt + 1)

/-- `rate_limited_request` (lines 157-176) over an explicit stream of
per-attempt outcomes.  First component: the returned value (`none` when the
`while retries < MAX_RETRIES` loop exhausts and the wrapper returns `None`);
second component: how many times the wrapped function was invoked. -/
def rate_limited_request {α : Type} (outcomes : ℕ → AttemptResult α) :
    Option α × ℕ :=
  rlr_go outcomes MAX_RETRIES 0

/-- A normalized track record as built by the fetch loops:
`{"uri": ..., "name": ..., "artist": ...}` (line 214). -/
structure Track where
  uri : String
  name : String
  artist : String
deriving DecidableEq, Repr

/-- A raw artist object: only its `name` field is read (line 213). -/
structure RawArtist where
  name : String
deriving DecidableEq, Repr

/-- A raw track object as returned by the API; `none` models an absent field
(`dict.get` returning `None`). -/
structure RawTrack where
  uri : Option String
  name : Option String
  artists : List RawArtist
deriving DecidableEq, Repr

/-- A raw playlist/saved-tracks item; `track` may be absent (line 210). -/
structure RawItem where
  track : Option RawTrack
deriving DecidableEq, Repr

/-- One page of a paginated API response: its items and the truthiness of its
`next` cursor. -/
structure Page where
  items : List RawItem
  next : Bool
deriving DecidableEq, Repr

/-- Item normalization of `get_playlist_info_and_tracks` (lines 209-214):
items whose `track` or `uri` is absent or falsy (empty string) are dropped;
`name` defaults to "Unknown"; the artist field is the comma-joined artist
names, or "Unknown" when that join is falsy (empty). -/
def trackOfItem (it : RawItem) : Option Track :=
  match it.track with
  | none => none
  | some t =>
    match t.uri with
    | none => none
    | some u =>
      if u = "" then none
      else
        let artist := String.intercalate ", " (t.artists.map RawArtist.name)
        some ⟨u, t.name.getD "Unknown", if artist = "" then "Unknown" else artist⟩

/-- Track extraction from one page's `items` (lines 209-214). -/
def extractTracks (items : List RawItem) : List Track :=
  items.filterMap trackOfItem

/-- Pagination loop of `get_playlist_info_and_tracks` (lines 207-218) over an
explicit list of successive page-request results.  A `none` response models a
terminal failure of `rate_limited_request` (the `while results:` guard then
ends the loop); a page with `next = false` breaks the loop. -/
def get_playlist_tracks : List (Option Page) → List Track
  | [] => []
  | none :: _ => []
  | some p :: rest =>
    extractTracks p.items ++ (if p.next then get_playlist_tracks rest else [])

/-- The caller's abort guard (line 521): `main` prints "No tracks loaded." and
returns to the dashboard exactly when the fetched track list is empty. -/
def mainAbortsNoTracks (tracks : List Track) : Bool :=
  tracks.isEmpty

/-- Mode argument of `process_songs` (line 262). -/
inductive Mode where
  | add
  | remove
deriving DecidableEq, Repr

/-- Result of the membership check
`rate_limited_request(sp.current_user_saved_tracks_contains, ...)[0]`
(lines 327/336): a boolean, or `terminalNone` (the wrapper exhausted its
retries and returned `None`, so the `[0]` subscript raises), or `raised`
(a non-Spotify exception propagated out of the wrapper). -/
inductive CheckResult where
  | liked
  | notLiked
  | terminalNone
  | raised
deriving DecidableEq, Repr

/-- Result of the add/remove mutation wrapper call (lines 332/338): success,
`terminalNone` (the wrapper returned `None` after exhausting retries — the
code never inspects this return value), or `raised` (an exception propagated
out of the wrapper). -/
inductive MutResult where
  | ok
  | terminalNone
  | raised
deriving DecidableEq, Repr

/-- The remote behaviour seen by one track of the processing loop. -/
structure TrackEnv where
  check : CheckResult
  mutRes : MutResult
deriving DecidableEq, Repr

/-- Per-track outcome of the processing loop body (lines 325-354). -/
inductive Outcome where
  | mutated
  | skippedAlreadyLiked
  | skippedNotLiked
  | failed
deriving DecidableEq, Repr

/-- Final counters of `process_songs` (lines 308-309, 358-360).  The code
keeps no `failed` variable; `failed` here counts the per-track error log
lines emitted by the `except` branch at line 353. -/
structure RunStats where
  processed : ℕ
  skipped : ℕ
  failed : ℕ
deriving DecidableEq, Repr

/-- Body of the `for` loop of `process_songs` for one track (lines 325-354).
Returns the track's outcome and whether the add/remove mutation was invoked.
A `terminalNone` or `raised` check raises before any branch is taken
(`None[0]` is a `TypeError`), landing in the `except` branch.  When the
mutation is invoked, its return value is discarded: only a raised exception
reaches the `except` branch; a `terminalNone` mutation still falls through to
the `processed += 1` line (334/340). -/
def stepTrack (mode : Mode) (env : TrackEnv) : Outcome × Bool :=
  match env.check with
  | .terminalNone => (.failed, false)
  | .raised => (.failed, false)
  | .liked =>
    match mode with
    | .add => (.skippedAlreadyLiked, false)
    | .remove =>
      match env.mutRes with
      | .raised => (.failed, true)
      | _ => (.mutated, true)
  | .notLiked =>
    match mode with
    | .add =>
      match env.mutRes with
      | .raised => (.failed, true)
      | _ => (.mutated, true)
    | .remove => (.skippedNotLiked, false)

/-- Counter update corresponding to one outcome (lines 330, 334, 340, 343;
the `failed` counter counts the error log at line 353). -/
def applyOutcome (st : RunStats) : Outcome → RunStats
  | .mutated => { st with processed := st.processed + 1 }
  | .skippedAlreadyLiked => { st with skipped := st.skipped + 1 }
  | .skippedNotLiked => { st with skipped := st.skipped + 1 }
  | .failed => { st with failed := st.failed + 1 }

/-- One visited track of a run, with the remote behaviour it saw, its
outcome, and whether the add/remove mutation was invoked for it. -/
structure TraceEntry where
  track : Track
  env : TrackEnv
  outcome : Outcome
  mutInvoked : Bool
deriving DecidableEq, Repr

/-- The `for i, track in enumerate(tracks[::-1], 1)` loop of `process_songs`
(lines 321-356), run over an already-reversed visit list; `i` is the 0-based
visit index and `envOf i` the remote behaviour seen at that visit. -/
def runFrom (mode : Mode) (envOf : ℕ → TrackEnv) :
    List Track → ℕ → RunStats → RunStats × List TraceEntry
  | [], _, st => (st, [])
  | t :: rest, i, st =>
    let r := stepTrack mode (envOf i)
    let next := runFrom mode envOf rest (i + 1) (applyOutcome st r.1)
    (next.1, ⟨t, envOf i, r.1, r.2⟩ :: next.2)

/-- `process_songs` (lines 307-360): visits `tracks[::-1]` in order, starting
from zeroed counters, and returns the final counters together with the visit
trace. -/
def process_songs (mode : Mode) (envOf : ℕ → TrackEnv) (tracks : List Track) :
    RunStats × List TraceEntry :=
  runFrom mode envOf tracks.reverse 0 ⟨0, 0, 0⟩

/-- ASCII model of Python's `str.lower()` (line 374). -/
def pyLower (s : String) : String :=
  ⟨s.data.map Char.toLower⟩

/-- Whitespace stripped by Python's `int(str)` (ASCII model). -/
def isPySpace (c : Char) : Bool :=
  c = ' ' || c = '\t' || c = '\n' || c = '\r' || c = '\x0B' || c = '\x0C'

/-- Leading and trailing whitespace removal of Python's `int(str)`. -/
def pyStrip (cs : List Char) : List Char :=
  ((cs.dropWhile isPySpace).reverse.dropWhile isPySpace).reverse

/-- Digit run of Python's `int(str)` after the first digit: underscores are
allowed only singly and between digits (ASCII model). -/
def pyDigitsAux : ℕ → List Char → Option ℕ
  | acc, [] => some acc
  | acc, '_' :: c :: rest =>
    if c.isDigit then pyDigitsAux (acc * 10 + (c.toNat - 48)) rest else none
  | acc, c :: rest =>
    if c.isDigit then pyDigitsAux (acc * 10 + (c.toNat - 48)) rest else none

/-- Digit run of Python's `int(str)`: at least one digit. -/
def pyDigitsStart : List Char → Option ℕ
  | [] => none
  | c :: rest => if c.isDigit then pyDigitsAux (c.toNat - 48) rest else none

/-- ASCII model of Python's `int(str)` (line 374): surrounding whitespace is
stripped, an optional sign precedes a digit run; anything else raises
`ValueError`, modelled as `none`. -/
def pyInt (s : String) : Option ℤ :=
  match pyStrip s.data with
  | '+' :: rest => (pyDigitsStart rest).map (fun n => (n : ℤ))
  | '-' :: rest => (pyDigitsStart rest).map (fun n => -(n : ℤ))
  | cs => (pyDigitsStart cs).map (fun n => (n : ℤ))

/-- Limit parsing of `create_playlist_from_liked` (lines 373-376):
`limit = int(limit_str) if limit_str.lower() != "all" else None`, with a
`ValueError` also yielding `None`.  `none` means unbounded. -/
def parse_limit (s : String) : Option ℤ :=
  if pyLower s = "all" then none else pyInt s

/-- Page-size argument of the first saved-tracks request, `limit or 50`
(line 382): `None` and the falsy `0` both give 50. -/
def saved_tracks_page_limit (limit : Option ℤ) : ℤ :=
  match limit with
  | none => 50
  | some n => if n = 0 then 50 else n

/-- Per-item uri extraction of the liked-songs loop (lines 384-387): items
whose `track` or `uri` is absent or falsy (empty string) are dropped. -/
def uriOfItem (it : RawItem) : Option String :=
  match it.track with
  | none => none
  | some t =>
    match t.uri with
    | none => none
    | some u => if u = "" then none else some u

/-- The uris collected from one saved-tracks page (lines 384-387). -/
def pageUris (p : Page) : List String :=
  p.items.filterMap uriOfItem

/-- The stay-in-loop test at line 388: `limit is None or len(liked) < limit`. -/
def continue_pagination (limit : Option ℤ) (len : ℕ) : Bool :=
  match limit with
  | none => true
  | some n => decide ((len : ℤ) < n)

/-- Liked-songs fetch loop of `create_playlist_from_liked` (lines 381-391)
over an explicit list of successive page-request results.  A `none` response
models a terminal failure of `rate_limited_request` (the `while results:`
guard then ends the loop); the loop continues only while the page has a
`next` cursor and the bound (if any) is not yet reached. -/
def liked_fetch_loop (limit : Option ℤ) :
    List (Option Page) → List String → List String
  | [], acc => acc
  | none :: _, acc => acc
  | some p :: rest, acc =>
    let acc2 := acc ++ pageUris p
    if p.next && continue_pagination limit acc2.length then
      liked_fetch_loop limit rest acc2
    else acc2

/-- Python's `l[:n]` for a possibly negative `n`: a negative bound counts
from the end of the list. -/
def pySliceTo (l : List String) (n : ℤ) : List String :=
  if n < 0 then l.take (l.length - (-n).toNat) else l.take n.toNat

/-- Final truncation of `create_playlist_from_liked` (lines 393-394):
`if limit and len(liked) > limit: liked = liked[:limit]` — skipped when
`limit` is `None` or the falsy `0`. -/
def liked_truncate : Option ℤ → List String → List String
  | none, liked => liked
  | some n, liked =>
    if n ≠ 0 ∧ (liked.length : ℤ) > n then pySliceTo liked n else liked

/-- The exported uri list: the fetch loop's result after final truncation
(lines 381-394). -/
def fetch_liked (limit : Option ℤ) (responses : List (Option Page)) :
    List String :=
  liked_truncate limit (liked_fetch_loop limit responses [])

/-- Batch slicing of the upload loop (lines 421-423):
`for i in range(0, len(liked), 100): batch = liked[i:i+100]`. -/
def playlist_add_batches (l : List String) : List (List String) :=
  if h : l = [] then []
  else l.take 100 :: playlist_add_batches (l.drop 100)
termination_by l.length
decreasing_by
  simp only [List.length_drop]
  have hp : 0 < l.length := List.length_pos.mpr h
  omega

/-! Helper lemmas about the processing loop. -/

theorem applyOutcome_total (st : RunStats) (oc : Outcome) :
    (applyOutcome st oc).processed + (applyOutcome st oc).skipped
      + (applyOutcome st oc).failed
      = st.processed + st.skipped + st.failed + 1 := by
  cases oc <;> simp [applyOutcome] <;> omega

theorem runFrom_counts (mode : Mode) (envOf : ℕ → TrackEnv) (ts : List Track) :
    ∀ (i : ℕ) (st : RunStats),
      ((runFrom mode envOf ts i st).1).processed
        + ((runFrom mode envOf ts i st).1).skipped
        + ((runFrom mode envOf ts i st).1).failed
      = st.processed + st.skipped + st.failed + ts.length := by
  induction ts with
  | nil => intro i st; simp [runFrom]
  | cons t rest ih =>
    intro i st
    simp only [runFrom, List.length_cons]
    rw [ih]
    have h := applyOutcome_total st (stepTrack mode (envOf i)).1
    omega

theorem runFrom_trace (mode : Mode) (envOf : ℕ → TrackEnv) (ts : List Track) :
    ∀ (i : ℕ) (st : RunStats),
      ((runFrom mode envOf ts i st).2).map TraceEntry.track = ts := by
  induction ts with
  | nil => intro i st; simp [runFrom]
  | cons t rest ih => intro i st; simp [runFrom, ih]

theorem runFrom_mem_step (mode : Mode) (envOf : ℕ → TrackEnv) (ts : List Track) :
    ∀ (i : ℕ) (st : RunStats) (e : TraceEntry),
      e ∈ (runFrom mode envOf ts i st).2 →
      (e.outcome, e.mutInvoked) = stepTrack mode e.env := by
  induction ts with
  | nil => intro i st e he; simp [runFrom] at he
  | cons t rest ih =>
    intro i st e he
    simp only [runFrom] at he
    rcases List.mem_cons.mp he with h | h
    · subst h; rfl
    · exact ih (i + 1) (applyOutcome st (stepTrack mode (envOf i)).1) e h

theorem stepTrack_invoked (mode : Mode) (env : TrackEnv)
    (h : (stepTrack mode env).2 = true) :
    (mode = Mode.add → env.check = CheckResult.notLiked) ∧
    (mode = Mode.remove → env.check = CheckResult.liked) := by
  obtain ⟨c, m⟩ := env
  cases mode <;> cases c <;> cases m <;> simp_all [stepTrack]

/-! Claim theorems. -/

/-- C1 counterexample: a one-track Add run whose add-mutation terminally fails
(the retry wrapper exhausts its retries and returns None).  The claim predicts
the Failed state with processed = 0; the code discards the wrapper's result
(line 332), reports the track as added and increments processed, so the run
ends with processed = 1 and outcome Mutated, not Failed. -/
theorem C1_counterexample :
    ((process_songs Mode.add
        (fun _ => ⟨CheckResult.notLiked, MutResult.terminalNone⟩)
        [⟨"u", "n", "a"⟩]).1).processed = 1 ∧
    ((process_songs Mode.add
        (fun _ => ⟨CheckResult.notLiked, MutResult.terminalNone⟩)
        [⟨"u", "n", "a"⟩]).2).map TraceEntry.outcome = [Outcome.mutated] ∧
    ¬ ((process_songs Mode.add
        (fun _ => ⟨CheckResult.notLiked, MutResult.terminalNone⟩)
        [⟨"u", "n", "a"⟩]).2).map TraceEntry.outcome = [Outcome.failed] :=
  ⟨rfl, rfl, by decide⟩

/-- C1 (amended): a terminal failure of the membership check (the wrapper's
None is subscripted, raising) puts the track in the Failed state, incrementing
neither processed nor skipped; but a terminal failure of the add or remove
mutation is not detected: the loop discards the mutation wrapper's result, so
any invoked mutation that does not raise — successful or terminally failed —
increments processed, and only a raised exception yields Failed. -/
theorem C1_amended_failure_accounting (mode : Mode) (env : TrackEnv)
    (st : RunStats) :
    ((env.check = CheckResult.terminalNone ∨ env.check = CheckResult.raised) →
      applyOutcome st (stepTrack mode env).1
          = { st with failed := st.failed + 1 } ∧
      (stepTrack mode env).2 = false) ∧
    (((mode = Mode.add ∧ env.check = CheckResult.notLiked) ∨
      (mode = Mode.remove ∧ env.check = CheckResult.liked)) →
      (env.mutRes ≠ MutResult.raised →
        applyOutcome st (stepTrack mode env).1
          = { st with processed := st.processed + 1 }) ∧
      (env.mutRes = MutResult.raised →
        applyOutcome st (stepTrack mode env).1
          = { st with failed := st.failed + 1 })) := by
  obtain ⟨c, m⟩ := env
  cases mode <;> cases c <;> cases m <;> simp [stepTrack, applyOutcome]

/-- Witness for C1 (amended): a failed check increments only the failure
count; a terminally failed add-mutation still increments processed. -/
theorem C1_amended_failure_accounting_witness :
    ((CheckResult.terminalNone = CheckResult.terminalNone ∨
        CheckResult.terminalNone = CheckResult.raised) ∧
      applyOutcome ⟨0, 0, 0⟩
          (stepTrack Mode.add ⟨CheckResult.terminalNone, MutResult.ok⟩).1
        = ⟨0, 0, 1⟩) ∧
    applyOutcome ⟨2, 3, 4⟩
        (stepTrack Mode.add ⟨CheckResult.notLiked, MutResult.terminalNone⟩).1
      = ⟨3, 3, 4⟩ :=
  ⟨⟨Or.inl rfl,
    ((C1_amended_failure_accounting Mode.add
        ⟨CheckResult.terminalNone, MutResult.ok⟩ ⟨0, 0, 0⟩).1 (Or.inl rfl)).1⟩,
    ((C1_amended_failure_accounting Mode.add
        ⟨CheckResult.notLiked, MutResult.terminalNone⟩ ⟨2, 3, 4⟩).2
      (Or.inl ⟨rfl, rfl⟩)).1 (by decide)⟩

/-- C2: at the end of every run of the processing loop over N tracks,
processed + skipped + failed = N: every visited track increments exactly one
of the two printed counters or the per-track failure log, so no track is
unaccounted. -/
theorem C2_all_tracks_accounted (mode : Mode) (envOf : ℕ → TrackEnv)
    (tracks : List Track) :
    ((process_songs mode envOf tracks).1).processed
      + ((process_songs mode envOf tracks).1).skipped
      + ((process_songs mode envOf tracks).1).failed = tracks.length := by
  unfold process_songs
  rw [runFrom_counts]
  simp

/-- C3: the pacing decision equals the reference table: any count above 1000
forces delay 1.2 (SafetyForced) regardless of the selection; at or below 1000
the delays are 0.35 / 0.6 / 1.5 for fast / balanced / accurate, and a missing
selection defaults to balanced. -/
theorem C3_pacing_table (total : ℕ) (choice : Option Speed) :
    (total > 1000 →
      decide_pacing total choice = ((1.2 : ℚ), PaceKind.safetyForced)) ∧
    (total ≤ 1000 →
      decide_pacing total (some Speed.fast) = ((0.35 : ℚ), PaceKind.fast) ∧
      decide_pacing total (some Speed.balanced)
        = ((0.6 : ℚ), PaceKind.balanced) ∧
      decide_pacing total (some Speed.accurate)
        = ((1.5 : ℚ), PaceKind.accurate) ∧
      decide_pacing total none = decide_pacing total (some Speed.balanced)) := by
  constructor
  · intro h
    simp [decide_pacing, SAFE_THRESHOLD, SLOW_THRESHOLD_DELAY, h]
  · intro h
    have h2 : ¬ total > SAFE_THRESHOLD := by simp only [SAFE_THRESHOLD]; omega
    simp [decide_pacing, h2, SPEED_MODES, PaceKind.ofSpeed]

/-- Witness for C3 at the concrete counts 1001 and 3. -/
theorem C3_pacing_table_witness :
    decide_pacing 1001 (some Speed.fast)
      = ((1.2 : ℚ), PaceKind.safetyForced) ∧
    decide_pacing 1001 (some Speed.accurate)
      = ((1.2 : ℚ), PaceKind.safetyForced) ∧
    decide_pacing 3 (some Speed.fast) = ((0.35 : ℚ), PaceKind.fast) ∧
    decide_pacing 3 none = decide_pacing 3 (some Speed.balanced) := by
  refine ⟨?_, ?_, ?_, ?_⟩
  · exact (C3_pacing_table 1001 (some Speed.fast)).1 (by omega)
  · exact (C3_pacing_table 1001 (some Speed.accurate)).1 (by omega)
  · exact ((C3_pacing_table 3 (some Speed.fast)).2 (by omega)).1
  · exact ((C3_pacing_table 3 none).2 (by omega)).2.2.2

/-- C4: every run visits exactly N tracks, and visits them in strictly
reversed input order: the visit trace lists precisely `tracks.reverse`, so the
last element of the input list is processed first. -/
theorem C4_reverse_visit_order (mode : Mode) (envOf : ℕ → TrackEnv)
    (tracks : List Track) :
    ((process_songs mode envOf tracks).2).map TraceEntry.track
        = tracks.reverse ∧
    ((process_songs mode envOf tracks).2).length = tracks.length := by
  unfold process_songs
  have h := runFrom_trace mode envOf tracks.reverse 0 ⟨0, 0, 0⟩
  refine ⟨h, ?_⟩
  have h2 := congrArg List.length h
  simpa using h2

/-- C5: in every run, a mutation is invoked for a track only when the
membership check that immediately precedes it reported the actionable state:
in Add mode the add-mutation is never invoked after the check reported the
track as liked, and in Remove mode the remove-mutation is never invoked after
the check reported it as not liked. -/
theorem C5_check_before_mutation (mode : Mode) (envOf : ℕ → TrackEnv)
    (tracks : List Track) (e : TraceEntry)
    (he : e ∈ (process_songs mode envOf tracks).2)
    (hinv : e.mutInvoked = true) :
    (mode = Mode.add → e.env.check = CheckResult.notLiked) ∧
    (mode = Mode.remove → e.env.check = CheckResult.liked) := by
  have h := runFrom_mem_step mode envOf tracks.reverse 0 ⟨0, 0, 0⟩ e he
  apply stepTrack_invoked
  rw [← h]
  exact hinv

/-- Witness for C5: a one-track Add run whose check reports not-liked invokes
the mutation, and its trace entry's check indeed reported not-liked. -/
theorem C5_check_before_mutation_witness :
    ((⟨⟨"u", "n", "a"⟩, ⟨CheckResult.notLiked, MutResult.ok⟩,
        Outcome.mutated, true⟩ : TraceEntry) ∈
      (process_songs Mode.add (fun _ => ⟨CheckResult.notLiked, MutResult.ok⟩)
        [⟨"u", "n", "a"⟩]).2) ∧
    (Mode.add = Mode.add →
      (⟨CheckResult.notLiked, MutResult.ok⟩ : TrackEnv).check
        = CheckResult.notLiked) :=
  ⟨by decide,
    (C5_check_before_mutation Mode.add
      (fun _ => ⟨CheckResult.notLiked, MutResult.ok⟩) [⟨"u", "n", "a"⟩]
      ⟨⟨"u", "n", "a"⟩, ⟨CheckResult.notLiked, MutResult.ok⟩,
        Outcome.mutated, true⟩ (by decide) rfl).1⟩

/-! Helper lemmas about the retry wrapper, pagination, and export. -/

theorem rlr_go_all_fail {α : Type} (outcomes : ℕ → AttemptResult α)
    (h : ∀ k a, outcomes k ≠ AttemptResult.ok a) :
    ∀ (fuel attempt : ℕ),
      rlr_go outcomes fuel attempt = (none, attempt + fuel) := by
  intro fuel
  induction fuel with
  | zero => intro attempt; simp [rlr_go]
  | succ f ih =>
    intro attempt
    cases hk : outcomes attempt with
    | ok a => exact absurd hk (h attempt a)
    | rateLimited r =>
      simp only [rlr_go, hk]
      rw [ih (attempt + 1), Prod.mk.injEq]
      exact ⟨rfl, by omega⟩
    | apiError =>
      simp only [rlr_go, hk]
      rw [ih (attempt + 1), Prod.mk.injEq]
      exact ⟨rfl, by omega⟩

theorem rlr_go_none_attempts {α : Type} (outcomes : ℕ → AttemptResult α) :
    ∀ (fuel attempt : ℕ), (rlr_go outcomes fuel attempt).1 = none →
      (rlr_go outcomes fuel attempt).2 = attempt + fuel := by
  intro fuel
  induction fuel with
  | zero => intro attempt _; simp [rlr_go]
  | succ f ih =>
    intro attempt hnone
    cases hk : outcomes attempt with
    | ok a => simp [rlr_go, hk] at hnone
    | rateLimited r =>
      simp only [rlr_go, hk] at hnone ⊢
      rw [ih (attempt + 1) hnone]
      omega
    | apiError =>
      simp only [rlr_go, hk] at hnone ⊢
      rw [ih (attempt + 1) hnone]
      omega

theorem get_playlist_tracks_partial (rest : List (Option Page)) :
    ∀ ps : List Page, (∀ p ∈ ps, p.next = true) →
      get_playlist_tracks (ps.map some ++ none :: rest) =
        (ps.map fun p => extractTracks p.items).join := by
  intro ps
  induction ps with
  | nil => intro _; simp [get_playlist_tracks]
  | cons p ps ih =>
    intro h
    have hp : p.next = true := h p (List.mem_cons_self p ps)
    have hps : ∀ q ∈ ps, q.next = true :=
      fun q hq => h q (List.mem_cons_of_mem p hq)
    simp [get_playlist_tracks, hp, ih hps]

theorem playlist_add_batches_nil_iff (m : List String) :
    playlist_add_batches m = [] ↔ m = [] := by
  rw [playlist_add_batches]
  by_cases h : m = [] <;> simp [h]

theorem playlist_add_batches_spec (l : List String) :
    (playlist_add_batches l).join = l ∧
    (∀ b ∈ (playlist_add_batches l).dropLast, b.length = 100) ∧
    (∀ b ∈ playlist_add_batches l, 0 < b.length ∧ b.length ≤ 100) := by
  by_cases h : l = []
  · subst h
    rw [playlist_add_batches]
    simp
  · have ih := playlist_add_batches_spec (l.drop 100)
    rw [playlist_add_batches, dif_neg h]
    refine ⟨?_, ?_, ?_⟩
    · simp only [List.join_cons, ih.1, List.take_append_drop]
    · intro b hb
      by_cases hd : l.drop 100 = []
      · rw [(playlist_add_batches_nil_iff _).mpr hd] at hb
        simp at hb
      · have hne : playlist_add_batches (l.drop 100) ≠ [] :=
          fun hc => hd ((playlist_add_batches_nil_iff _).mp hc)
        rw [List.dropLast_cons_of_ne_nil hne] at hb
        rcases List.mem_cons.mp hb with hb1 | hb2
        · subst hb1
          have hlen : 100 < l.length := by
            by_contra hcon
            exact hd (List.drop_eq_nil_iff.mpr (by omega))
          simp only [List.length_take]
          omega
        · exact ih.2.1 b hb2
    · intro b hb
      rcases List.mem_cons.mp hb with hb1 | hb2
      · subst hb1
        have hpos : 0 < l.length := List.length_pos.mpr h
        constructor
        · simp only [List.length_take]; omega
        · simp only [List.length_take]; omega
      · exact ih.2.2 b hb2
termination_by l.length
decreasing_by
  simp only [List.length_drop]
  have hp : 0 < l.length := List.length_pos.mpr h
  omega

theorem liked_loop_unbounded :
    ∀ (ps : List Page) (plast : Page) (acc : List String),
      (∀ p ∈ ps, p.next = true) → plast.next = false →
      liked_fetch_loop none ((ps ++ [plast]).map some) acc =
        acc ++ ((ps ++ [plast]).map pageUris).join := by
  intro ps
  induction ps with
  | nil =>
    intro plast acc _ hlast
    simp [liked_fetch_loop, hlast]
  | cons p ps ih =>
    intro plast acc h hlast
    have hp : p.next = true := h p (List.mem_cons_self p ps)
    have hps : ∀ q ∈ ps, q.next = true :=
      fun q hq => h q (List.mem_cons_of_mem p hq)
    have hstep :
        liked_fetch_loop none (((p :: ps) ++ [plast]).map some) acc =
          liked_fetch_loop none ((ps ++ [plast]).map some) (acc ++ pageUris p) := by
      simp [liked_fetch_loop, hp, continue_pagination]
    rw [hstep, ih plast (acc ++ pageUris p) hps hlast]
    simp [List.append_assoc]

/-- C6: an operation failing on every attempt is invoked exactly MAX_RETRIES
(5) times before the wrapper returns the terminal None, never more; and a
terminal None is returned only after exactly 5 exhausted attempts. -/
theorem C6_retry_exhaustion {α : Type} (outcomes : ℕ → AttemptResult α) :
    ((∀ k a, outcomes k ≠ AttemptResult.ok a) →
      rate_limited_request outcomes = (none, MAX_RETRIES)) ∧
    ((rate_limited_request outcomes).1 = none →
      (rate_limited_request outcomes).2 = MAX_RETRIES) := by
  constructor
  · intro h
    unfold rate_limited_request
    rw [rlr_go_all_fail outcomes h]
    simp
  · intro h
    unfold rate_limited_request at h ⊢
    rw [rlr_go_none_attempts outcomes MAX_RETRIES 0 h]
    omega

/-- Witness for C6: an always-failing operation yields the terminal None
after exactly 5 invocations. -/
theorem C6_retry_exhaustion_witness :
    rate_limited_request (fun _ => (AttemptResult.apiError : AttemptResult ℕ))
      = (none, 5) :=
  (C6_retry_exhaustion (fun _ => (AttemptResult.apiError : AttemptResult ℕ))).1
    (fun _ _ h => AttemptResult.noConfusion h)

/-- C7: a terminal failure of the first page request yields an empty track
list, on which the caller's no-tracks guard aborts; a terminal failure of a
later page request yields exactly the tracks collected from the earlier
pages. -/
theorem C7_pagination_failure (ps : List Page) (rest : List (Option Page)) :
    (get_playlist_tracks (none :: rest) = [] ∧
      mainAbortsNoTracks (get_playlist_tracks (none :: rest)) = true) ∧
    ((∀ p ∈ ps, p.next = true) →
      get_playlist_tracks (ps.map some ++ none :: rest) =
        (ps.map fun p => extractTracks p.items).join) :=
  ⟨⟨rfl, rfl⟩, fun h => get_playlist_tracks_partial rest ps h⟩

/-- Witness for C7: page 1 succeeds, page 2 terminally fails, and the result
is exactly page 1's tracks. -/
theorem C7_pagination_failure_witness :
    get_playlist_tracks
        [some ⟨[⟨some ⟨some "spotify:track:1", some "Song", [⟨"Artist"⟩]⟩⟩],
          true⟩, none]
      = [⟨"spotify:track:1", "Song", "Artist"⟩] :=
  ((C7_pagination_failure
      [⟨[⟨some ⟨some "spotify:track:1", some "Song", [⟨"Artist"⟩]⟩⟩], true⟩]
      []).2 (by decide)).trans (by decide)

/-- C8: for every finite limit N ≥ 1, the liked-songs fetch loop makes no
further page request once N uris have been collected, even when the page has
a next cursor and more responses exist; the final truncation cuts a collected
list of at least N uris to exactly N; and the upload slicing produces batches
of exactly 100 uris except a smaller, nonempty final remainder batch, which
together re-form the uploaded list. -/
theorem C8_bounded_export (N : ℤ) (hN : 1 ≤ N) :
    (∀ (p : Page) (rest : List (Option Page)) (acc : List String),
      N ≤ ((acc ++ pageUris p).length : ℤ) →
      liked_fetch_loop (some N) (some p :: rest) acc = acc ++ pageUris p) ∧
    (∀ liked : List String, N ≤ (liked.length : ℤ) →
      liked_truncate (some N) liked = liked.take N.toNat ∧
      ((liked_truncate (some N) liked).length : ℤ) = N) ∧
    (∀ l : List String,
      (playlist_add_batches l).join = l ∧
      (∀ b ∈ (playlist_add_batches l).dropLast, b.length = 100) ∧
      (∀ b ∈ playlist_add_batches l, 0 < b.length ∧ b.length ≤ 100)) := by
  refine ⟨?_, ?_, playlist_add_batches_spec⟩
  · intro p rest acc hlen
    rw [List.length_append] at hlen
    have hc : continue_pagination (some N) (acc.length + (pageUris p).length)
        = false := by
      simp only [continue_pagination, decide_eq_false_iff_not, not_lt]
      omega
    simp [liked_fetch_loop, hc]
  · intro liked hlen
    have hN0 : N ≠ 0 := by omega
    have htk : liked_truncate (some N) liked = liked.take N.toNat := by
      simp only [liked_truncate]
      by_cases hgt : (liked.length : ℤ) > N
      · rw [if_pos ⟨hN0, hgt⟩]
        unfold pySliceTo
        rw [if_neg (by omega)]
      · rw [if_neg (fun hcon => hgt hcon.2)]
        have hEq : liked.length = N.toNat := by omega
        rw [← hEq, List.take_length]
    refine ⟨htk, ?_⟩
    rw [htk]
    simp only [List.length_take]
    omega

/-- Witness for C8 at N = 2: a first page bearing two uris and a next cursor
stops the fetch with the two responses that follow unconsumed; truncation at
2 leaves the two uris; the upload batches re-form the list. -/
theorem C8_bounded_export_witness :
    liked_fetch_loop (some 2)
        [some ⟨[⟨some ⟨some "u1", none, []⟩⟩, ⟨some ⟨some "u2", none, []⟩⟩],
          true⟩, none, none] []
      = ["u1", "u2"] ∧
    liked_truncate (some 2) ["u1", "u2"] = ["u1", "u2"] ∧
    (playlist_add_batches ["u1", "u2"]).join = ["u1", "u2"] := by
  have h := C8_bounded_export 2 (by omega)
  refine ⟨?_, ?_, (h.2.2 ["u1", "u2"]).1⟩
  · exact (h.1 ⟨[⟨some ⟨some "u1", none, []⟩⟩, ⟨some ⟨some "u2", none, []⟩⟩],
      true⟩ [none, none] [] (by decide)).trans (by decide)
  · exact ((h.2.1 ["u1", "u2"] (by decide)).1).trans (by decide)

/-- C9: with the export limit 0 the code does not export zero tracks: 0 is
falsy, so the first page is requested with page size `limit or 50` = 50, the
loop stops after that page because `len(liked) < 0` never holds, and the
final truncation is skipped because `if limit` is false — the exported list
is the whole first page.  The limit string "0" indeed parses to 0. -/
theorem C9_zero_limit_first_page (p1 : Page) (rest : List (Option Page)) :
    parse_limit "0" = some 0 ∧
    saved_tracks_page_limit (some 0) = 50 ∧
    fetch_liked (some 0) (some p1 :: rest) = pageUris p1 := by
  refine ⟨by decide, rfl, ?_⟩
  have hc : continue_pagination (some 0) (pageUris p1).length = false := by
    simp only [continue_pagination, decide_eq_false_iff_not, not_lt]
    omega
  simp [fetch_liked, liked_fetch_loop, hc, liked_truncate]

/-- Witness for C9 at a concrete first page of one uri. -/
theorem C9_zero_limit_first_page_witness :
    fetch_liked (some 0) [some ⟨[⟨some ⟨some "u1", none, []⟩⟩], true⟩, none]
      = ["u1"] :=
  ((C9_zero_limit_first_page ⟨[⟨some ⟨some "u1", none, []⟩⟩], true⟩
    [none]).2.2).trans (by decide)

/-- C10: a limit string that is neither a Python integer literal nor the word
"all" (case-insensitively) is not rejected: the ValueError handler silently
maps it to the unbounded limit None, under which the fetch loop walks every
page to the one without a next cursor, collects all their uris, and the final
truncation leaves the list untouched. -/
theorem C10_invalid_limit_unbounded (s : String) (ps : List Page)
    (plast : Page) (h1 : pyLower s ≠ "all") (h2 : pyInt s = none)
    (hnext : ∀ p ∈ ps, p.next = true) (hlast : plast.next = false) :
    parse_limit s = none ∧
    fetch_liked (parse_limit s) ((ps ++ [plast]).map some) =
      ((ps ++ [plast]).map pageUris).join := by
  have hp : parse_limit s = none := by simp [parse_limit, h1, h2]
  refine ⟨hp, ?_⟩
  rw [hp]
  unfold fetch_liked
  rw [liked_loop_unbounded ps plast [] hnext hlast]
  simp [liked_truncate]

/-- Witness for C10 at the invalid limit string "abc" and a one-page
library. -/
theorem C10_invalid_limit_unbounded_witness :
    parse_limit "abc" = none ∧
    fetch_liked (parse_limit "abc")
        [some ⟨[⟨some ⟨some "u1", none, []⟩⟩], false⟩] = ["u1"] := by
  have h := C10_invalid_limit_unbounded "abc" []
    ⟨[⟨some ⟨some "u1", none, []⟩⟩], false⟩ (by decide) (by decide)
    (by simp) rfl
  exact ⟨h.1, h.2.trans (by decide)⟩

end Spotify
